import Mathlib

/-!
# Verification of the gqnlib dataset conversion pipeline

Shallow embedding of the claim-relevant parts of the repository:

* `examples/convert_tfrecord_torch.py` — the tfrecord-to-gzip shard
  converter (`convert_record`, `convert_raw_to_gzip`, `_preprocess_frames`,
  `_preprocess_cameras`, `main`);
* `gqnlib/scene_dataset.py` — the shard loader (`SceneDataset.__len__`,
  `SceneDataset.__getitem__`, `transform_viewpoint`).

Image pixel contents come from the external JPEG decoder
(`tf.image.decode_jpeg`) and are irrelevant to every claim, so frames are
modelled at the shape level (a `List ℕ` of tensor dimensions).  Camera /
viewpoint data is modelled at the value level with a small tensor type that
records the leading dimensions, the last dimension, and the rows (each row is
one last-dimension vector).  The trigonometric functions `tf.sin` / `tf.cos` /
`torch.sin` / `torch.cos` are external collaborators and are passed as
function parameters `s c : α → α`; theorems about real angles instantiate
them with `Real.sin` / `Real.cos`.
-/

instance {ε α : Type} [DecidableEq ε] [DecidableEq α] : DecidableEq (Except ε α) := fun a b =>
  match a, b with
  | .ok x, .ok y => decidable_of_iff (x = y) (by simp)
  | .error x, .error y => decidable_of_iff (x = y) (by simp)
  | .ok _, .error _ => isFalse (by simp)
  | .error _, .ok _ => isFalse (by simp)

/-! ## String utilities

Models of the Python string operations used by the converter and the loader:
`str.split` with a one-character separator, `pathlib.PurePath.stem`,
`int(...)` applied to a decimal digit string, and the decimal rendering of a
natural number performed by an f-string such as `f"{base_name}.pt.gz"`.
-/

/-- Model of Python `str.split(sep)` for a one-character separator `sep`,
acting on the character list of the string. -/
def splitOnC (c : Char) : List Char → List (List Char)
  | [] => [[]]
  | a :: as =>
    let r := splitOnC c as
    if a = c then [] :: r
    else
      match r with
      | [] => [[a]]
      | h :: t => (a :: h) :: t

/-- Model of `pathlib.PurePath.stem`: the final path component without its
last extension (the part before the last `'.'`, when a `'.'` is present). -/
def pathStem (s : String) : String :=
  let parts := splitOnC '.' s.data
  if parts.length ≤ 1 then s else ⟨List.intercalate ['.'] parts.dropLast⟩

/-- Model of Python `int(str)` on a plain decimal digit string: `some` of the
decimal value when the string is nonempty and all characters are digits
(leading zeros allowed, as in `int("042") == 42`), `none` (a raised
`ValueError`) otherwise. -/
def parseNat (l : List Char) : Option ℕ :=
  if l = [] then none
  else if l.all Char.isDigit then
    some (l.foldl (fun acc c => acc * 10 + (c.toNat - 48)) 0)
  else none

/-- Auxiliary decimal printer with explicit fuel (structural recursion). -/
def natStrAux (fuel n : ℕ) : List Char :=
  match fuel, n with
  | 0, _ => []
  | _ + 1, 0 => []
  | f + 1, m + 1 => natStrAux f ((m + 1) / 10) ++ [Nat.digitChar ((m + 1) % 10)]

/-- Model of Python `str(n)` / f-string formatting for a natural number:
its decimal digit string.  Fuel `n` is enough since the argument shrinks by a
factor of ten at every step. -/
def natStr (n : ℕ) : String :=
  if n = 0 then "0" else ⟨natStrAux n n⟩

/-! ## Tensor model

Value-level model of the camera tensors: `lead` records every dimension but
the last, `width` is the last dimension, and `rows` lists the last-dimension
vectors (one per point of the leading index space, in row-major order).
All claim-relevant tensor operations act on the last dimension (slicing,
`tf.concat`/`torch.cat` on the last axis, `torch.split` on the last axis,
elementwise maps) or prepend a dimension (`torch.stack`).
-/

structure Tensor (α : Type) where
  lead : List ℕ
  width : ℕ
  rows : List (List α)
  deriving Repr, DecidableEq

/-- Full shape of the tensor: leading dimensions followed by the last one. -/
def Tensor.shape {α : Type} (t : Tensor α) : List ℕ := t.lead ++ [t.width]

/-- Slice `[a:b]` of the last dimension (as in `raw_pose_params[:, :, a:b]`). -/
def Tensor.sliceLast {α : Type} (t : Tensor α) (a b : ℕ) : Tensor α :=
  ⟨t.lead, b - a, t.rows.map fun r => (r.take b).drop a⟩

/-- Elementwise map (model of `tf.sin`, `tf.cos`, `torch.sin`, `torch.cos`). -/
def Tensor.emap {α : Type} (f : α → α) (t : Tensor α) : Tensor α :=
  ⟨t.lead, t.width, t.rows.map (List.map f)⟩

/-- Concatenation of two tensors along the last axis. -/
def Tensor.cat2 {α : Type} (a b : Tensor α) : Tensor α :=
  ⟨a.lead, a.width + b.width, List.zipWith (· ++ ·) a.rows b.rows⟩

/-- Concatenation of a list of tensors along the last axis (model of
`tf.concat(view, axis=2)` and `torch.cat(view, dim=-1)`). -/
def Tensor.catLast {α : Type} : List (Tensor α) → Tensor α
  | [] => ⟨[], 0, []⟩
  | t :: rest => rest.foldl Tensor.cat2 t

/-- Model of `torch.split(t, size, dim=-1)`: chunks of `size` along the last
dimension, the final chunk possibly smaller. -/
def Tensor.splitLast {α : Type} (t : Tensor α) (size : ℕ) : List (Tensor α) :=
  (List.range ((t.width + size - 1) / size)).map fun j =>
    t.sliceLast (j * size) (min ((j + 1) * size) t.width)

/-- Model of `torch.stack(ts)`: prepend the list length as a new leading
dimension (the shard's scenes all share one shape, which `torch.stack`
requires). -/
def Tensor.stack {α : Type} (ts : List (Tensor α)) : Tensor α :=
  match ts with
  | [] => ⟨[], 0, []⟩
  | t :: _ => ⟨ts.length :: t.lead, t.width, (ts.map Tensor.rows).flatten⟩

/-- Chunking with explicit fuel (structural recursion). -/
def chunksAux {α : Type} (n : ℕ) : ℕ → List α → List (List α)
  | 0, _ => []
  | _ + 1, [] => []
  | f + 1, l => l.take n :: chunksAux n f (l.drop n)

/-- Split a flat list into consecutive chunks of length `n` (row-major
reshape of a flat array to rows of width `n`). -/
def chunksOf {α : Type} (n : ℕ) (l : List α) : List (List α) :=
  chunksAux n l.length l

/-- Shape-level model of `tf.reshape(x, (-1,) + rest)`: the `-1` dimension is
inferred as the total element count divided by the product of the rest. -/
def reshape_m1 (total : ℕ) (rest : List ℕ) : List ℕ :=
  (total / rest.prod) :: rest

/-! ## Dataset catalog (`_DATASETS` in `convert_tfrecord_torch.py`) -/

structure DatasetInfo where
  basepath : String
  train_size : ℕ
  test_size : ℕ
  frame_size : ℕ
  sequence_size : ℕ
  deriving Repr, DecidableEq

def jaco : DatasetInfo := ⟨"jaco", 3600, 400, 64, 11⟩
def mazes : DatasetInfo := ⟨"mazes", 1080, 120, 84, 300⟩
def rooms_free_camera_with_object_rotations : DatasetInfo :=
  ⟨"rooms_free_camera_with_object_rotations", 2034, 226, 128, 10⟩
def rooms_ring_camera : DatasetInfo := ⟨"rooms_ring_camera", 2160, 240, 64, 10⟩
def rooms_free_camera_no_object_rotations : DatasetInfo :=
  ⟨"rooms_free_camera_no_object_rotations", 2160, 240, 64, 10⟩
def shepard_metzler_5_parts : DatasetInfo := ⟨"shepard_metzler_5_parts", 900, 100, 64, 15⟩
def shepard_metzler_7_parts : DatasetInfo := ⟨"shepard_metzler_7_parts", 900, 100, 64, 15⟩

/-- The `_DATASETS` lookup table. -/
def datasets (name : String) : Option DatasetInfo :=
  if name = "jaco" then some jaco
  else if name = "mazes" then some mazes
  else if name = "rooms_free_camera_with_object_rotations" then
    some rooms_free_camera_with_object_rotations
  else if name = "rooms_ring_camera" then some rooms_ring_camera
  else if name = "rooms_free_camera_no_object_rotations" then
    some rooms_free_camera_no_object_rotations
  else if name = "shepard_metzler_5_parts" then some shepard_metzler_5_parts
  else if name = "shepard_metzler_7_parts" then some shepard_metzler_7_parts
  else none

/-- `_NUM_CHANNELS`. -/
def NUM_CHANNELS : ℕ := 3

/-- `_NUM_RAW_CAMERA_PARAMS`. -/
def NUM_RAW_CAMERA_PARAMS : ℕ := 5

/-! ## Viewpoint transforms (the two call sites)

`_preprocess_cameras` (conversion time, `convert_tfrecord_torch.py` lines
187–197) and `transform_viewpoint` (load time, `scene_dataset.py` lines
68–87).
-/

/-- `_preprocess_cameras(dataset_info, example)`: reshape the flat raw camera
parameters to `[-1, sequence_size, 5]`, slice position `[0:3]`, yaw `[3:4]`,
pitch `[4:5]`, and concatenate
`[pos, sin(yaw), cos(yaw), sin(pitch), cos(pitch)]` along the last axis. -/
def preprocess_cameras {α : Type} (s c : α → α) (sequence_size : ℕ) (raw : List α) : Tensor α :=
  let t : Tensor α :=
    ⟨[raw.length / (sequence_size * NUM_RAW_CAMERA_PARAMS), sequence_size],
      NUM_RAW_CAMERA_PARAMS, chunksOf NUM_RAW_CAMERA_PARAMS raw⟩
  let pos := t.sliceLast 0 3
  let yaw := t.sliceLast 3 4
  let pitch := t.sliceLast 4 5
  Tensor.catLast [pos, yaw.emap s, yaw.emap c, pitch.emap s, pitch.emap c]

/-- `transform_viewpoint(viewpoints)` from `scene_dataset.py`:
`pos, tmp = torch.split(viewpoints, 3, dim=-1)` (the unpacking raises
`ValueError` unless the split yields exactly two chunks), then
`yaw, pitch = torch.split(tmp, 1, dim=-1)` (again exactly two chunks), then
`torch.cat([pos, cos(yaw), sin(yaw), cos(pitch), sin(pitch)], dim=-1)`. -/
def transform_viewpoint {α : Type} (s c : α → α) (v : Tensor α) : Except String (Tensor α) :=
  match v.splitLast 3 with
  | [pos, tmp] =>
    match tmp.splitLast 1 with
    | [yaw, pitch] =>
      .ok (Tensor.catLast [pos, yaw.emap c, yaw.emap s, pitch.emap c, pitch.emap s])
    | _ => .error "ValueError: unpack torch.split(tmp, 1)"
  | _ => .error "ValueError: unpack torch.split(viewpoints, 3)"

/-! ## Shard converter (`convert_record`, `convert_raw_to_gzip`) -/

/-- One raw serialized example of an input shard.  The image payloads are
opaque byte strings consumed by the external JPEG decoder, so only their
count is claim-relevant; the raw camera parameters are a flat float list. -/
structure RawRecord (α : Type) where
  frames : ℕ
  cameras : List α
  deriving Repr, DecidableEq

/-- The shapes `tf.io.parse_single_example` enforces through its
`FixedLenFeature` map: `sequence_size` image payloads and
`sequence_size * 5` raw camera floats. -/
def wellFormed {α : Type} (info : DatasetInfo) (r : RawRecord α) : Prop :=
  r.frames = info.sequence_size ∧
    r.cameras.length = info.sequence_size * NUM_RAW_CAMERA_PARAMS

instance {α : Type} (info : DatasetInfo) (r : RawRecord α) :
    Decidable (wellFormed info r) := by
  unfold wellFormed; infer_instance

/-- Shape-level model of `_preprocess_frames`: `n` decoded images of shape
`(frame_size, frame_size, 3)` are reshaped to
`(-1, sequence_size, frame_size, frame_size, 3)`; when `frame_size ≠ 64` the
images are resized to `64×64` and reshaped to `(-1, sequence_size, 64, 64, 3)`. -/
def preprocess_frames_shape (info : DatasetInfo) (n : ℕ) : List ℕ :=
  let fs := info.frame_size
  let dims := [fs, fs, NUM_CHANNELS]
  let total := n * (fs * fs * NUM_CHANNELS)
  if fs ≠ 64 then
    let shape2 := reshape_m1 total dims
    let resized := [shape2.headI, 64, 64, NUM_CHANNELS]
    reshape_m1 resized.prod ([info.sequence_size, 64, 64, NUM_CHANNELS])
  else
    reshape_m1 total ([info.sequence_size] ++ dims)

/-- One serialized `Scene` namedtuple `(frames, cameras)`: the frames array
is kept at the shape level (its pixels come from the external decoder), the
cameras array at the value level. -/
structure Scene (α : Type) where
  frames : List ℕ
  cameras : Tensor α
  deriving Repr, DecidableEq

instance {α : Type} : Inhabited (Tensor α) := ⟨⟨[], 0, []⟩⟩

instance {α : Type} : Inhabited (Scene α) := ⟨⟨[], default⟩⟩

/-- `convert_raw_to_gzip(dataset_info, raw_data)`: parse the example against
the fixed feature shapes (raising on mismatch), then preprocess frames and
cameras into a `Scene`. -/
def convert_raw_to_gzip {α : Type} (s c : α → α) (info : DatasetInfo) (r : RawRecord α) :
    Except String (Scene α) :=
  if wellFormed info r then
    .ok ⟨preprocess_frames_shape info r.frames,
      preprocess_cameras s c info.sequence_size r.cameras⟩
  else
    .error "MalformedRecord"

/-- The `scene_list.append(...)` loop body: convert each element in order,
propagating the first raised error. -/
def convertEach {β γ : Type} (f : β → Except String γ) : List β → Except String (List γ)
  | [] => .ok []
  | a :: as => do
    let y ← f a
    let ys ← convertEach f as
    .ok (y :: ys)

/-- The record-processing loop of `convert_record`: take at most
`batch_size` records from the shard in file order (`dataset.take(batch_size)`)
and convert each, propagating the first decoding error. -/
def convert_record {α : Type} (s c : α → α) (info : DatasetInfo)
    (records : List (RawRecord α)) (batch_size : ℕ) :
    Except String (List (Scene α)) :=
  convertEach (convert_raw_to_gzip s c info) (records.take batch_size)

/-- The output file name of `convert_record`:
`base_name = int(path.stem.split("-")[0])`, then `f"{base_name}.pt.gz"`
(`none` models the `ValueError` raised by `int` on a non-numeric prefix). -/
def convert_output_name (inputName : String) : Option String :=
  (parseNat ((splitOnC '-' (pathStem inputName).data).headI)).map
    fun n => natStr n ++ ".pt.gz"

/-- Filesystem effect of one `convert_record` call: the output file (name
and serialized scene list), or `none` when the conversion raised before the
single `gzip.open`/`torch.save` write at the end. -/
def convert_record_fs {α : Type} (s c : α → α) (info : DatasetInfo)
    (records : List (RawRecord α)) (batch_size : ℕ) (inputName : String) :
    Option (String × List (Scene α)) :=
  match convert_record s c info records batch_size, convert_output_name inputName with
  | .ok scenes, some name => some (name, scenes)
  | _, _ => none

/-! ## Parallel conversion driver (`main`) -/

/-- `sorted(tf_dir.glob("*.tfrecord"))`: the directory entries matching the
expected extension, sorted lexicographically. -/
def glob_sorted (files : List String) : List String :=
  (files.filter fun f => f.endsWith ".tfrecord").mergeSort fun a b => decide (a ≤ b)

/-- The shard-selection logic of `main`: raise `FileNotFoundError` when the
input directory does not exist, otherwise the sorted file list truncated to
the first `first_n` entries when `first_n` is given. -/
def main_run (dirExists : Bool) (files : List String) (first_n : Option ℕ) :
    Except String (List String) :=
  if dirExists then
    let l := glob_sorted files
    .ok (match first_n with | some n => l.take n | none => l)
  else
    .error "FileNotFoundError"

/-- `pool.map(f, record_list)`: one shard-converter invocation per selected
file, in order. -/
def main_dispatch {β : Type} (conv : String → β) (dirExists : Bool)
    (files : List String) (first_n : Option ℕ) : Except String (List β) :=
  (main_run dirExists files first_n).map (List.map conv)

/-! ## Scene loader (`SceneDataset`) -/

/-- `SceneDataset.__len__`: the number of entries in the root directory
(every filesystem entry, not only shard files). -/
def scene_dataset_len (rootEntries : List String) : ℕ := rootEntries.length

/-- Shape-level model of `torch.Tensor.permute`: errors unless the index
list has exactly one index per dimension. -/
def permute_shape (shape perm : List ℕ) : Except String (List ℕ) :=
  if perm.length = shape.length ∧ (∀ i ∈ perm, i < shape.length) ∧ perm.Nodup then
    .ok (perm.map fun i => shape.getD i 0)
  else
    .error "RuntimeError: permute dims"

/-- `SceneDataset.__getitem__(index)`: open `f"{index}.pt.gz"` in the root
directory (raising `FileNotFoundError` when absent), deserialize the scene
list, stack images and viewpoints across the list (`torch.stack` raises on
an empty list), permute the image axes with `(0, 1, 4, 2, 3)`, and apply
`transform_viewpoint` to the stacked stored viewpoints.  The directory is
modelled as an association list from file name to stored scene list. -/
def getitem {α : Type} (s c : α → α) (dir : List (String × List (Scene α))) (index : ℕ) :
    Except String (List ℕ × Tensor α) :=
  match dir.lookup (natStr index ++ ".pt.gz") with
  | none => .error "FileNotFoundError"
  | some scenes =>
    if scenes.isEmpty then .error "RuntimeError: stack expects a non-empty list"
    else
      let images_shape := scenes.length :: scenes.headI.frames
      let viewpoints := Tensor.stack (scenes.map Scene.cameras)
      match permute_shape images_shape [0, 1, 4, 2, 3] with
      | .error e => .error e
      | .ok permuted =>
        (transform_viewpoint s c viewpoints).map fun vp => (permuted, vp)

/-! ## Helper lemmas -/

section Helpers

variable {α β γ : Type}

/-- `convertEach` succeeds when every element does, and the result has the
same length. -/
theorem convertEach_ok_of_all (f : β → Except String γ) :
    ∀ l : List β, (∀ x ∈ l, ∃ y, f x = .ok y) →
      ∃ res, convertEach f l = .ok res ∧ res.length = l.length := by
  intro l
  induction l with
  | nil => intro _; exact ⟨[], rfl, rfl⟩
  | cons a as ih =>
    intro h
    obtain ⟨y, hy⟩ := h a (by simp)
    obtain ⟨res, hres, hlen⟩ := ih fun x hx => h x (by simp [hx])
    refine ⟨y :: res, ?_, by simp [hlen]⟩
    show (do
      let y ← f a
      let ys ← convertEach f as
      Except.ok (y :: ys)) = Except.ok (y :: res)
    rw [hy, hres]
    rfl

/-- Every element of a successful `convertEach` result comes from a
successful application to some element of the input list. -/
theorem convertEach_ok_mem (f : β → Except String γ) :
    ∀ (l : List β) (res : List γ), convertEach f l = .ok res →
      ∀ y ∈ res, ∃ x ∈ l, f x = .ok y := by
  intro l
  induction l with
  | nil =>
    intro res h
    simp only [convertEach] at h
    cases h
    simp
  | cons a as ih =>
    intro res h y hy
    simp only [convertEach] at h
    cases ha : f a with
    | error e => rw [ha] at h; cases h
    | ok z =>
      rw [ha] at h
      cases hrest : convertEach f as with
      | error e => rw [hrest] at h; cases h
      | ok zs =>
        rw [hrest] at h
        have h' : (Except.ok (z :: zs) : Except String (List γ)) = .ok res := h
        cases h'
        rcases List.mem_cons.mp hy with h1 | h2
        · exact ⟨a, by simp, by rw [ha, h1]⟩
        · obtain ⟨x, hx, hfx⟩ := ih zs hrest y h2
          exact ⟨x, by simp [hx], hfx⟩

/-- `convertEach` fails when some element of the list fails. -/
theorem convertEach_error_of_mem (f : β → Except String γ) :
    ∀ l : List β, (∃ x ∈ l, ∃ e, f x = .error e) →
      ∃ e, convertEach f l = .error e := by
  intro l
  induction l with
  | nil => rintro ⟨x, hx, _⟩; simp at hx
  | cons a as ih =>
    rintro ⟨x, hx, e, he⟩
    cases ha : f a with
    | error e' =>
      refine ⟨e', ?_⟩
      show (do
        let y ← f a
        let ys ← convertEach f as
        Except.ok (y :: ys)) = Except.error e'
      rw [ha]
      rfl
    | ok z =>
      rcases List.mem_cons.mp hx with h1 | h2
      · rw [h1, ha] at he; cases he
      · obtain ⟨e'', he''⟩ := ih ⟨x, h2, e, he⟩
        refine ⟨e'', ?_⟩
        show (do
          let y ← f a
          let ys ← convertEach f as
          Except.ok (y :: ys)) = Except.error e''
        rw [ha, he'']
        rfl

/-- A well-formed record converts successfully, to the `Scene` built from
the two preprocessing steps. -/
theorem convert_raw_to_gzip_ok (s c : α → α) (info : DatasetInfo) (r : RawRecord α)
    (h : wellFormed info r) :
    convert_raw_to_gzip s c info r =
      .ok ⟨preprocess_frames_shape info r.frames,
        preprocess_cameras s c info.sequence_size r.cameras⟩ := by
  simp [convert_raw_to_gzip, h]

/-- A malformed record raises `MalformedRecord`. -/
theorem convert_raw_to_gzip_error (s c : α → α) (info : DatasetInfo) (r : RawRecord α)
    (h : ¬ wellFormed info r) :
    convert_raw_to_gzip s c info r = .error "MalformedRecord" := by
  simp [convert_raw_to_gzip, h]

/-- The width of `_preprocess_cameras` output is always `7`. -/
theorem preprocess_cameras_width (s c : α → α) (n : ℕ) (raw : List α) :
    (preprocess_cameras s c n raw).width = 7 := rfl

/-- The frames shape produced by `_preprocess_frames` always has five
dimensions. -/
theorem preprocess_frames_shape_length (info : DatasetInfo) (n : ℕ) :
    (preprocess_frames_shape info n).length = 5 := by
  unfold preprocess_frames_shape reshape_m1
  by_cases h : info.frame_size ≠ 64 <;> simp [h]

/-- `transform_viewpoint` raises on any tensor whose last dimension is `7`
(`torch.split(·, 3)` yields three chunks, which cannot unpack into two). -/
theorem transform_viewpoint_width7_error (s c : α → α) (t : Tensor α) (h : t.width = 7) :
    transform_viewpoint s c t = .error "ValueError: unpack torch.split(viewpoints, 3)" := by
  unfold transform_viewpoint Tensor.splitLast
  rw [h]
  rfl

end Helpers

section NatStr

/-- The decimal printer never returns the digit string `"0"` for a positive
number. -/
theorem natStr_succ_ne_zero (n : ℕ) : natStr (n + 1) ≠ "0" := by
  intro h
  have hmk : (⟨natStrAux (n + 1) (n + 1)⟩ : String) = "0" := by
    simpa [natStr] using h
  have hd : natStrAux (n + 1) (n + 1) = ['0'] := by
    simpa using congrArg String.data hmk
  have hunfold : natStrAux (n + 1) (n + 1) =
      natStrAux n ((n + 1) / 10) ++ [Nat.digitChar ((n + 1) % 10)] := rfl
  rw [hunfold] at hd
  have hlen := congrArg List.length hd
  simp at hlen
  have hnil : natStrAux n ((n + 1) / 10) = [] := hlen
  rw [hnil] at hd
  simp at hd
  have hdig : ∀ m : ℕ, m < 10 → Nat.digitChar m = '0' → m = 0 := by decide
  have hm0 : (n + 1) % 10 = 0 := hdig _ (Nat.mod_lt _ (by norm_num)) hd
  have hq : 1 ≤ (n + 1) / 10 ∧ 9 ≤ n := by omega
  obtain ⟨f, rfl⟩ : ∃ f, n = f + 1 := ⟨n - 1, by omega⟩
  obtain ⟨q, hq'⟩ : ∃ q, (f + 1 + 1) / 10 = q + 1 := ⟨(f + 1 + 1) / 10 - 1, by omega⟩
  rw [hq'] at hnil
  exact absurd hnil (by simp [natStrAux])

end NatStr

section LookupHelpers

variable {α : Type}

/-- `List.lookup` misses when no key of the association list equals the
requested key. -/
theorem lookup_eq_none_of_all_ne {β : Type} (k : String) :
    ∀ l : List (String × β), (∀ p ∈ l, p.1 ≠ k) → l.lookup k = none := by
  intro l
  induction l with
  | nil => intro _; rfl
  | cons a as ih =>
    intro h
    have ha : a.1 ≠ k := h a (by simp)
    have hk : (k == a.1) = false := by
      simp only [beq_eq_false_iff_ne]
      exact fun hkk => ha hkk.symm
    simp only [List.lookup, hk]
    exact ih fun p hp => h p (by simp [hp])

end LookupHelpers

section SinglePose

variable {α : Type}

/-- Closed form of the conversion-time transform on a one-pose array:
position, then `sin`, `cos` of yaw, then `sin`, `cos` of pitch. -/
theorem preprocess_cameras_single (s c : α → α) (x y z yaw pitch : α) :
    preprocess_cameras s c 1 [x, y, z, yaw, pitch] =
      ⟨[1, 1], 7, [[x, y, z, s yaw, c yaw, s pitch, c pitch]]⟩ := by
  unfold preprocess_cameras NUM_RAW_CAMERA_PARAMS
  simp [chunksOf, chunksAux, Tensor.sliceLast, Tensor.emap, Tensor.catLast, Tensor.cat2]

/-- Closed form of the load-time transform on a one-pose array:
position, then `cos`, `sin` of yaw, then `cos`, `sin` of pitch. -/
theorem transform_viewpoint_single (s c : α → α) (x y z yaw pitch : α) :
    transform_viewpoint s c ⟨[1, 1], 5, [[x, y, z, yaw, pitch]]⟩ =
      .ok ⟨[1, 1], 7, [[x, y, z, c yaw, s yaw, c pitch, s pitch]]⟩ := by
  unfold transform_viewpoint Tensor.splitLast
  simp [Tensor.sliceLast, Tensor.emap, Tensor.catLast, Tensor.cat2, List.range_succ]

end SinglePose

/-- C1: the claim mandates the canonical order
`(x, y, z, sin(yaw), cos(yaw), sin(pitch), cos(pitch))` identically at both
call sites; on the raw pose `(0, 0, 0, π/2, 0)` the conversion-time
transform (`_preprocess_cameras`) produces `(0, 0, 0, 1, 0, 0, 1)`
(sin-then-cos) while the load-time transform (`transform_viewpoint`)
produces `(0, 0, 0, 0, 1, 1, 0)` (cos-then-sin), and the two outputs
differ: the code violates the mandated identical ordering. -/
theorem C1_transform_order_diverges :
    (preprocess_cameras Real.sin Real.cos 1 [0, 0, 0, Real.pi / 2, 0]).rows =
      [[0, 0, 0, 1, 0, 0, 1]] ∧
    transform_viewpoint Real.sin Real.cos ⟨[1, 1], 5, [[0, 0, 0, Real.pi / 2, 0]]⟩ =
      .ok ⟨[1, 1], 7, [[0, 0, 0, 0, 1, 1, 0]]⟩ ∧
    ([[0, 0, 0, 1, 0, 0, 1]] : List (List ℝ)) ≠ [[0, 0, 0, 0, 1, 1, 0]] := by
  refine ⟨?_, ?_, ?_⟩
  · rw [preprocess_cameras_single]
    simp [Real.sin_pi_div_two, Real.cos_pi_div_two]
  · rw [transform_viewpoint_single]
    simp [Real.sin_pi_div_two, Real.cos_pi_div_two, Tensor.mk.injEq]
  · intro h
    simp at h

/-- C5: for any raw pose `(x, y, z, yaw, pitch)`, both viewpoint transforms
leave the three position components unchanged, and the four angle components
satisfy `sin² + cos² = 1` for the yaw pair and for the pitch pair. -/
theorem C5_positions_unchanged_trig_identity (x y z yaw pitch : ℝ) :
    (∃ a₁ b₁ a₂ b₂ : ℝ,
      (preprocess_cameras Real.sin Real.cos 1 [x, y, z, yaw, pitch]).rows =
        [[x, y, z, a₁, b₁, a₂, b₂]] ∧ a₁ ^ 2 + b₁ ^ 2 = 1 ∧ a₂ ^ 2 + b₂ ^ 2 = 1) ∧
    (∃ t : Tensor ℝ,
      transform_viewpoint Real.sin Real.cos ⟨[1, 1], 5, [[x, y, z, yaw, pitch]]⟩ = .ok t ∧
      ∃ a₁ b₁ a₂ b₂ : ℝ, t.rows = [[x, y, z, a₁, b₁, a₂, b₂]] ∧
        a₁ ^ 2 + b₁ ^ 2 = 1 ∧ a₂ ^ 2 + b₂ ^ 2 = 1) := by
  constructor
  · exact ⟨Real.sin yaw, Real.cos yaw, Real.sin pitch, Real.cos pitch,
      by rw [preprocess_cameras_single],
      Real.sin_sq_add_cos_sq yaw, Real.sin_sq_add_cos_sq pitch⟩
  · refine ⟨_, transform_viewpoint_single Real.sin Real.cos x y z yaw pitch, ?_⟩
    exact ⟨Real.cos yaw, Real.sin yaw, Real.cos pitch, Real.sin pitch, rfl,
      by rw [add_comm]; exact Real.sin_sq_add_cos_sq yaw,
      by rw [add_comm]; exact Real.sin_sq_add_cos_sq pitch⟩

/-- C7: `convert_record` reads at most `batch_size` records in file order;
records beyond `batch_size` are ignored without error (they are not even
required to be well-formed), and the output `Scene` list has exactly
`min(batch_size, available records)` entries. -/
theorem C7_reads_at_most_batch_size {α : Type} (s c : α → α) (info : DatasetInfo)
    (records : List (RawRecord α)) (batch_size : ℕ)
    (h : ∀ r ∈ records.take batch_size, wellFormed info r) :
    ∃ scenes, convert_record s c info records batch_size = .ok scenes ∧
      scenes.length = min batch_size records.length := by
  obtain ⟨res, hres, hlen⟩ := convertEach_ok_of_all (convert_raw_to_gzip s c info)
    (records.take batch_size)
    (fun r hr => ⟨_, convert_raw_to_gzip_ok s c info r (h r hr)⟩)
  refine ⟨res, hres, ?_⟩
  rw [hlen]
  simp [List.length_take]

/-- C7 witness: a shard of three records whose third is malformed, with
`batch_size = 2`: conversion succeeds with exactly `min 2 3 = 2` scenes. -/
theorem C7_witness :
    (∀ r ∈ ([⟨15, List.replicate 75 0⟩, ⟨15, List.replicate 75 0⟩,
        ⟨14, []⟩] : List (RawRecord ℚ)).take 2, wellFormed shepard_metzler_5_parts r) ∧
    ∃ scenes, convert_record (id : ℚ → ℚ) id shepard_metzler_5_parts
        [⟨15, List.replicate 75 0⟩, ⟨15, List.replicate 75 0⟩, ⟨14, []⟩] 2 = .ok scenes ∧
      scenes.length = min 2 3 :=
  ⟨by decide, C7_reads_at_most_batch_size id id shepard_metzler_5_parts
    [⟨15, List.replicate 75 0⟩, ⟨15, List.replicate 75 0⟩, ⟨14, []⟩] 2 (by decide)⟩

/-- C8: when some processed record is malformed, the whole shard conversion
raises the decoding error, and no output shard file is created (the single
`gzip.open`/`torch.save` write at the end is never reached). -/
theorem C8_malformed_aborts_whole_shard {α : Type} (s c : α → α) (info : DatasetInfo)
    (records : List (RawRecord α)) (batch_size : ℕ) (inputName : String)
    (h : ∃ r ∈ records.take batch_size, ¬ wellFormed info r) :
    (∃ e, convert_record s c info records batch_size = .error e) ∧
    convert_record_fs s c info records batch_size inputName = none := by
  obtain ⟨r, hr, hbad⟩ := h
  obtain ⟨e, he⟩ := convertEach_error_of_mem (convert_raw_to_gzip s c info)
    (records.take batch_size)
    ⟨r, hr, "MalformedRecord", convert_raw_to_gzip_error s c info r hbad⟩
  refine ⟨⟨e, he⟩, ?_⟩
  unfold convert_record_fs
  rw [show convert_record s c info records batch_size = .error e from he]

/-- C8 witness: a single malformed record (14 image payloads instead of 15,
no camera floats) aborts the conversion and produces no output file. -/
theorem C8_witness :
    (∃ r ∈ ([⟨14, []⟩] : List (RawRecord ℚ)).take 1, ¬ wellFormed shepard_metzler_5_parts r) ∧
    ((∃ e, convert_record (id : ℚ → ℚ) id shepard_metzler_5_parts [⟨14, []⟩] 1 = .error e) ∧
      convert_record_fs (id : ℚ → ℚ) id shepard_metzler_5_parts [⟨14, []⟩] 1
        "001-of-900.tfrecord" = none) :=
  ⟨by decide, C8_malformed_aborts_whole_shard id id shepard_metzler_5_parts
    [⟨14, []⟩] 1 "001-of-900.tfrecord" (by decide)⟩

/-- C2: the claim mandates that the loader treat stored viewpoints as
already in final 7-dimensional form and not re-apply the 5-to-7 transform;
in the code, `SceneDataset.__getitem__` does call `transform_viewpoint` on
the stacked stored viewpoints, and since every stored cameras tensor from a
successful conversion has last dimension 7, that call raises (the claimed
behaviour is absent from the code). -/
theorem C2_loader_reapplies_transform {α : Type} (s c : α → α) (info : DatasetInfo)
    (records : List (RawRecord α)) (batch_size : ℕ) (scenes : List (Scene α))
    (hok : convert_record s c info records batch_size = .ok scenes)
    (hne : scenes ≠ []) :
    (Tensor.stack (scenes.map Scene.cameras)).width = 7 ∧
    transform_viewpoint s c (Tensor.stack (scenes.map Scene.cameras)) =
      .error "ValueError: unpack torch.split(viewpoints, 3)" := by
  obtain ⟨y, ys, rfl⟩ := List.exists_cons_of_ne_nil hne
  obtain ⟨x, hx, hxy⟩ := convertEach_ok_mem (convert_raw_to_gzip s c info)
    (records.take batch_size) (y :: ys) hok y (by simp)
  have hw : y.cameras.width = 7 := by
    unfold convert_raw_to_gzip at hxy
    by_cases hwf : wellFormed info x
    · rw [if_pos hwf] at hxy
      cases hxy
      exact preprocess_cameras_width s c info.sequence_size x.cameras
    · rw [if_neg hwf] at hxy
      cases hxy
  have hst : (Tensor.stack ((y :: ys).map Scene.cameras)).width = 7 := by
    simpa [Tensor.stack] using hw
  exact ⟨hst, transform_viewpoint_width7_error s c _ hst⟩

/-- C2 witness: the one-record shard converts to a concrete scene list on
which the loader's `transform_viewpoint` application fails. -/
theorem C2_witness :
    convert_record (id : ℚ → ℚ) id shepard_metzler_5_parts [⟨15, List.replicate 75 0⟩] 16 =
      .ok [⟨[1, 15, 64, 64, 3], preprocess_cameras id id 15 (List.replicate 75 0)⟩] ∧
    ([⟨[1, 15, 64, 64, 3], preprocess_cameras id id 15 (List.replicate 75 0)⟩] :
      List (Scene ℚ)) ≠ [] ∧
    ((Tensor.stack (([⟨[1, 15, 64, 64, 3],
        preprocess_cameras id id 15 (List.replicate 75 0)⟩] :
        List (Scene ℚ)).map Scene.cameras)).width = 7 ∧
      transform_viewpoint (id : ℚ → ℚ) id
        (Tensor.stack (([⟨[1, 15, 64, 64, 3],
          preprocess_cameras id id 15 (List.replicate 75 0)⟩] :
          List (Scene ℚ)).map Scene.cameras)) =
        .error "ValueError: unpack torch.split(viewpoints, 3)") :=
  ⟨by decide, by decide,
    C2_loader_reapplies_transform id id shepard_metzler_5_parts
      [⟨15, List.replicate 75 0⟩] 16
      [⟨[1, 15, 64, 64, 3], preprocess_cameras id id 15 (List.replicate 75 0)⟩]
      (by decide) (by decide)⟩

/-- The frames array stored for one well-formed record has shape
`(1, sequence_size, 64, 64, 3)`: the `-1` of `tf.reshape` resolves to `1`
for a single example, in both the resize and the no-resize branch. -/
theorem preprocess_frames_shape_eq (info : DatasetInfo)
    (hseq : 1 ≤ info.sequence_size) (hfs : 1 ≤ info.frame_size) :
    preprocess_frames_shape info info.sequence_size = [1, info.sequence_size, 64, 64, 3] := by
  have hseq' : 0 < info.sequence_size := hseq
  have hfs' : 0 < info.frame_size := hfs
  unfold preprocess_frames_shape reshape_m1 NUM_CHANNELS
  by_cases h : info.frame_size ≠ 64
  · simp only [if_pos h, List.prod_cons, List.prod_nil, List.headI]
    have h1 : info.sequence_size * (info.frame_size * info.frame_size * 3) /
        (info.frame_size * (info.frame_size * (3 * 1))) = info.sequence_size := by
      rw [show info.frame_size * (info.frame_size * (3 * 1)) =
        info.frame_size * info.frame_size * 3 by ring]
      exact Nat.mul_div_cancel _ (by positivity)
    rw [h1]
    congr 1
    exact Nat.div_self (by positivity)
  · have h64 : info.frame_size = 64 := not_not.mp h
    rw [if_neg h]
    simp only [h64, List.cons_append, List.nil_append, List.prod_cons, List.prod_nil]
    congr 1
    rw [show info.sequence_size * (64 * (64 * (3 * 1))) =
      info.sequence_size * (64 * 64 * 3) by ring]
    exact Nat.div_self (by positivity)

/-- The full shape of the `_preprocess_cameras` output. -/
theorem preprocess_cameras_shape {α : Type} (s c : α → α) (seq : ℕ) (raw : List α) :
    (preprocess_cameras s c seq raw).shape = [raw.length / (seq * 5), seq, 7] := rfl

/-- C4: the claim states each serialized `Scene` holds a frames array of
shape exactly `(sequence_length, 64, 64, 3)` and a cameras array of shape
exactly `(sequence_length, 7)`; in the code both stored arrays carry an
extra leading dimension of size 1 — frames are `(1, sequence_length, 64, 64, 3)`
and cameras `(1, sequence_length, 7)` — because `tf.reshape(·, (-1, ...))`
retains the singleton example dimension (the module docstring documents the
claimed shapes without the leading 1). -/
theorem C4_stored_scene_shapes {α : Type} (s c : α → α) (info : DatasetInfo)
    (r : RawRecord α) (hwf : wellFormed info r)
    (hseq : 1 ≤ info.sequence_size) (hfs : 1 ≤ info.frame_size) :
    convert_raw_to_gzip s c info r =
      .ok ⟨[1, info.sequence_size, 64, 64, 3],
        preprocess_cameras s c info.sequence_size r.cameras⟩ ∧
    (preprocess_cameras s c info.sequence_size r.cameras).shape =
      [1, info.sequence_size, 7] ∧
    ([1, info.sequence_size, 64, 64, 3] : List ℕ) ≠ [info.sequence_size, 64, 64, 3] ∧
    ([1, info.sequence_size, 7] : List ℕ) ≠ [info.sequence_size, 7] := by
  obtain ⟨hfr, hcam⟩ := hwf
  refine ⟨?_, ?_, ?_, ?_⟩
  · rw [convert_raw_to_gzip_ok s c info r ⟨hfr, hcam⟩, hfr,
      preprocess_frames_shape_eq info hseq hfs]
  · rw [preprocess_cameras_shape, hcam]
    show [info.sequence_size * NUM_RAW_CAMERA_PARAMS / (info.sequence_size * 5),
      info.sequence_size, 7] = [1, info.sequence_size, 7]
    congr 1
    exact Nat.div_self (Nat.mul_pos hseq (by decide))
  · intro hl
    have := congrArg List.length hl
    simp at this
  · intro hl
    have := congrArg List.length hl
    simp at this

/-- C4 witness: a concrete well-formed record of the
`shepard_metzler_5_parts` dataset stores frames of shape
`(1, 15, 64, 64, 3)` and cameras of shape `(1, 15, 7)`. -/
theorem C4_witness :
    (wellFormed shepard_metzler_5_parts (⟨15, List.replicate 75 0⟩ : RawRecord ℚ) ∧
      1 ≤ shepard_metzler_5_parts.sequence_size ∧
      1 ≤ shepard_metzler_5_parts.frame_size) ∧
    (convert_raw_to_gzip (id : ℚ → ℚ) id shepard_metzler_5_parts ⟨15, List.replicate 75 0⟩ =
        .ok ⟨[1, 15, 64, 64, 3], preprocess_cameras id id 15 (List.replicate 75 0)⟩ ∧
      (preprocess_cameras (id : ℚ → ℚ) id 15 (List.replicate 75 0)).shape = [1, 15, 7] ∧
      ([1, 15, 64, 64, 3] : List ℕ) ≠ [15, 64, 64, 3] ∧
      ([1, 15, 7] : List ℕ) ≠ [15, 7]) :=
  ⟨⟨by decide, by decide, by decide⟩,
    C4_stored_scene_shapes id id shepard_metzler_5_parts ⟨15, List.replicate 75 0⟩
      (by decide) (by decide) (by decide)⟩

/-- `List.lookup` hits on the head key. -/
theorem lookup_cons_self {β : Type} (k : String) (v : β) (t : List (String × β)) :
    List.lookup k ((k, v) :: t) = some v := by
  simp [List.lookup]

/-- C3: the claim states that converting a shard of `k ≤ batch_size`
well-formed records and loading it back yields `k` records with frames
`(k, sequence_size, 3, 64, 64)` and viewpoints `(k, sequence_size, 7)`;
in the code the conversion does produce `min(batch_size, k)` scenes, but
loading the produced shard raises instead of returning tensors: the stored
frames carry shape `(1, sequence_size, 64, 64, 3)`, so the stacked image
tensor is 6-dimensional and the loader's 5-index `permute(0, 1, 4, 2, 3)`
fails. -/
theorem C3_roundtrip_raises {α : Type} (s c : α → α) (info : DatasetInfo)
    (records : List (RawRecord α)) (batch_size n : ℕ) (inputName : String)
    (hwf : ∀ r ∈ records.take batch_size, wellFormed info r)
    (hne : records ≠ []) (hb : 1 ≤ batch_size)
    (hname : parseNat ((splitOnC '-' (pathStem inputName).data).headI) = some n) :
    ∃ scenes, convert_record_fs s c info records batch_size inputName =
        some (natStr n ++ ".pt.gz", scenes) ∧
      scenes.length = min batch_size records.length ∧
      ∃ e, getitem s c [(natStr n ++ ".pt.gz", scenes)] n = .error e := by
  obtain ⟨scenes, hok, hlen'⟩ := convertEach_ok_of_all (convert_raw_to_gzip s c info)
    (records.take batch_size)
    (fun r hr => ⟨_, convert_raw_to_gzip_ok s c info r (hwf r hr)⟩)
  have hokr : convert_record s c info records batch_size = .ok scenes := hok
  have hlen : scenes.length = min batch_size records.length := by
    rw [hlen']
    simp [List.length_take]
  refine ⟨scenes, ?_, hlen, ?_⟩
  · unfold convert_record_fs convert_output_name
    rw [hokr, hname]
    rfl
  · have hpos : 0 < scenes.length := by
      rw [hlen]
      have := List.length_pos.mpr hne
      omega
    obtain ⟨y, ys, hsc⟩ := List.exists_cons_of_ne_nil (List.ne_nil_of_length_pos hpos)
    have hmem : y ∈ scenes := by rw [hsc]; simp
    obtain ⟨x, hx, hxy⟩ := convertEach_ok_mem _ _ _ hokr y hmem
    have hyf : y.frames = preprocess_frames_shape info x.frames := by
      unfold convert_raw_to_gzip at hxy
      by_cases hwfx : wellFormed info x
      · rw [if_pos hwfx] at hxy
        cases hxy
        rfl
      · rw [if_neg hwfx] at hxy
        cases hxy
    have hflen : scenes.headI.frames.length = 5 := by
      rw [hsc]
      show y.frames.length = 5
      rw [hyf]
      exact preprocess_frames_shape_length info x.frames
    have hperm : permute_shape (scenes.length :: scenes.headI.frames) [0, 1, 4, 2, 3] =
        .error "RuntimeError: permute dims" := by
      unfold permute_shape
      rw [if_neg]
      rintro ⟨h1, -⟩
      simp [hflen] at h1
    refine ⟨"RuntimeError: permute dims", ?_⟩
    unfold getitem
    rw [lookup_cons_self]
    have hemp : scenes.isEmpty = false := by
      rw [hsc]
      rfl
    simp only [hemp, Bool.false_eq_true, if_false, hperm]

/-- C3 witness: one well-formed record, `batch_size = 16`, input shard name
`"001-of-900.tfrecord"`: conversion writes `"1.pt.gz"` with one scene, and
loading that shard back by its index raises. -/
theorem C3_witness :
    ((∀ r ∈ ([⟨15, List.replicate 75 0⟩] : List (RawRecord ℚ)).take 16,
        wellFormed shepard_metzler_5_parts r) ∧
      ([⟨15, List.replicate 75 0⟩] : List (RawRecord ℚ)) ≠ [] ∧ 1 ≤ 16 ∧
      parseNat ((splitOnC '-' (pathStem "001-of-900.tfrecord").data).headI) = some 1) ∧
    ∃ scenes, convert_record_fs (id : ℚ → ℚ) id shepard_metzler_5_parts
        [⟨15, List.replicate 75 0⟩] 16 "001-of-900.tfrecord" =
        some (natStr 1 ++ ".pt.gz", scenes) ∧
      scenes.length = min 16 1 ∧
      ∃ e, getitem (id : ℚ → ℚ) id [(natStr 1 ++ ".pt.gz", scenes)] 1 = .error e :=
  ⟨⟨by decide, by decide, by decide, by decide⟩,
    C3_roundtrip_raises id id shepard_metzler_5_parts [⟨15, List.replicate 75 0⟩] 16 1
      "001-of-900.tfrecord" (by decide) (by decide) (by decide) (by decide)⟩

/-- C6 counterexample: on input `"042-of-900.ext"` the converter writes
`"42.pt.gz"` — the output suffix is always the fixed `".pt.gz"`, not the
input's `".ext"` followed by `".gz"` as the claim's example
`"42.ext.gz"` states. -/
theorem C6_counterexample :
    convert_output_name "042-of-900.ext" = some "42.pt.gz" ∧
    convert_output_name "042-of-900.ext" ≠ some "42.ext.gz" := by
  constructor
  · decide
  · decide

/-- C6 (amended): for every input shard filename, the Shard Converter
writes its output to `<shard_index>.pt.gz` (a fixed suffix, independent of
the input extension), where `shard_index` is the integer parsed from the
numeric prefix of the stem before the first `'-'`; leading zeros are
dropped by the parse (prepending `'0'` to the numeric prefix does not
change the parsed index). -/
theorem C6_output_name_amended (name : String) (n : ℕ)
    (h : parseNat ((splitOnC '-' (pathStem name).data).headI) = some n) :
    convert_output_name name = some (natStr n ++ ".pt.gz") ∧
    parseNat ('0' :: (splitOnC '-' (pathStem name).data).headI) = some n := by
  constructor
  · unfold convert_output_name
    rw [h]
    rfl
  · unfold parseNat at h ⊢
    by_cases h0 : (splitOnC '-' (pathStem name).data).headI = []
    · rw [if_pos h0] at h
      cases h
    · rw [if_neg h0] at h
      by_cases hd : ((splitOnC '-' (pathStem name).data).headI).all Char.isDigit
      · rw [if_pos hd] at h
        rw [if_neg (by simp : ('0' :: (splitOnC '-' (pathStem name).data).headI) ≠ [])]
        rw [if_pos (by simp [hd] :
          ('0' :: (splitOnC '-' (pathStem name).data).headI).all Char.isDigit = true)]
        rw [List.foldl_cons]
        have h48 : (0 * 10 + ('0'.toNat - 48)) = 0 := by decide
        rw [h48]
        exact h
      · rw [if_neg hd] at h
        cases h

/-- C6 witness: the stem of `"042-of-900.ext"` has numeric prefix `"042"`,
which parses to `42`, and the output filename is `natStr 42 ++ ".pt.gz"`,
i.e. `"42.pt.gz"`. -/
theorem C6_witness :
    parseNat ((splitOnC '-' (pathStem "042-of-900.ext").data).headI) = some 42 ∧
    (convert_output_name "042-of-900.ext" = some (natStr 42 ++ ".pt.gz") ∧
      parseNat ('0' :: (splitOnC '-' (pathStem "042-of-900.ext").data).headI) = some 42) :=
  ⟨by decide, C6_output_name_amended "042-of-900.ext" 42 (by decide)⟩

/-- C9: the Parallel Conversion Driver raises `FileNotFoundError` when the
input directory does not exist; otherwise it selects exactly the
lexicographically sorted list of `.tfrecord` shard files truncated to the
first `first_n` entries — the selection is sorted, drawn from the
directory with the expected extension, of length
`min first_n (number of matching files)` — and dispatches one Shard
Converter invocation per selected file. -/
theorem C9_driver_selection {β : Type} (files : List String) (first_n : ℕ)
    (conv : String → β) :
    main_run false files (some first_n) = .error "FileNotFoundError" ∧
    main_run true files (some first_n) = .ok ((glob_sorted files).take first_n) ∧
    List.Sorted (· ≤ ·) ((glob_sorted files).take first_n) ∧
    (∀ f ∈ (glob_sorted files).take first_n, f ∈ files ∧ f.endsWith ".tfrecord" = true) ∧
    ((glob_sorted files).take first_n).length =
      min first_n (files.filter fun f => f.endsWith ".tfrecord").length ∧
    main_dispatch conv true files (some first_n) =
      .ok (((glob_sorted files).take first_n).map conv) := by
  have hsorted : List.Sorted (· ≤ ·) (glob_sorted files) := by
    have := @List.sorted_mergeSort String (fun a b : String => decide (a ≤ b))
      (fun a b c hab hbc => by
        simp only [decide_eq_true_eq] at *
        exact le_trans hab hbc)
      (fun a b => by
        simp only [Bool.or_eq_true, decide_eq_true_eq]
        exact le_total a b)
      (files.filter fun f => f.endsWith ".tfrecord")
    exact this.imp fun h => by simpa using h
  refine ⟨rfl, rfl, ?_, ?_, ?_, ?_⟩
  · exact hsorted.sublist (List.take_sublist _ _)
  · intro f hf
    have hmem : f ∈ glob_sorted files := (List.take_sublist _ _).subset hf
    have : f ∈ files.filter fun f => f.endsWith ".tfrecord" := by
      simpa [glob_sorted] using List.mem_mergeSort.mp hmem
    exact ⟨(List.mem_filter.mp this).1, (List.mem_filter.mp this).2⟩
  · rw [List.length_take]
    simp [glob_sorted, List.length_mergeSort]
  · rfl

/-- C10: the converter names output shards by the 1-based ordinal parsed
from the input filename, producing `1.pt.gz .. N.pt.gz`, while
`SceneDataset` addresses shards by 0-based index: on such a directory
`__len__` counts every entry and returns `N`, yet `__getitem__(0)` opens
`"0.pt.gz"`, which no converter output is named, and raises
`FileNotFoundError`. -/
theorem C10_zero_index_misses {α : Type} (s c : α → α) (N : ℕ)
    (contents : ℕ → List (Scene α)) :
    scene_dataset_len ((List.range N).map fun i => natStr (i + 1) ++ ".pt.gz") = N ∧
    getitem s c ((List.range N).map fun i => (natStr (i + 1) ++ ".pt.gz", contents i)) 0 =
      .error "FileNotFoundError" := by
  constructor
  · simp [scene_dataset_len]
  · unfold getitem
    have hnone : (((List.range N).map fun i =>
        (natStr (i + 1) ++ ".pt.gz", contents i)).lookup (natStr 0 ++ ".pt.gz")) = none := by
      apply lookup_eq_none_of_all_ne
      rintro p hp
      simp only [List.mem_map] at hp
      obtain ⟨i, hi, rfl⟩ := hp
      intro hkey
      have hdata := congrArg String.data hkey
      rw [String.data_append, String.data_append] at hdata
      have hpre := (List.append_inj' hdata rfl).1
      have hstr : natStr (i + 1) = natStr 0 := congrArg String.mk hpre
      exact natStr_succ_ne_zero i (hstr.trans rfl)
    rw [hnone]
